import Mathlib

/-!
Shallow embedding of `src/python/virus_check.py` (an S3 virus-scan Lambda)
and proofs of the specification claims about it.

External effects (S3 head/get/list, `mkdtemp`, `clamscan` subprocess,
`rmtree`) are modelled by explicit environments of outcomes; the control
flow, string manipulation and result construction are translated directly
from the Python source.
-/

namespace VirusCheck

/-- Embeds `re.sub(r'\.\./', '', key)`: leftmost non-overlapping removal of
the literal pattern `../`, continuing after each match. -/
def removeDotDotSlash : List Char → List Char
  | '.' :: '.' :: '/' :: rest => removeDotDotSlash rest
  | c :: rest => c :: removeDotDotSlash rest
  | [] => []

/-- Embeds `re.sub(r'\.\.\\', '', key)`: removal of the literal pattern
`..\` (two dots and a backslash). -/
def removeDotDotBackslash : List Char → List Char
  | '.' :: '.' :: '\\' :: rest => removeDotDotBackslash rest
  | c :: rest => c :: removeDotDotBackslash rest
  | [] => []

/-- The character class `[<>:"|?*]` replaced by `_` in `sanitize_s3_key`. -/
def isBadChar (c : Char) : Bool :=
  c = '<' || c = '>' || c = ':' || c = '"' || c = '|' || c = '?' || c = '*'

/-- Index of the last occurrence of `c` in `l` (Python `str.rfind`, as an
`Option`). -/
def lastIdxOf (c : Char) : List Char → Option Nat
  | [] => none
  | x :: xs =>
    match lastIdxOf c xs with
    | some i => some (i + 1)
    | none => if x = c then some 0 else none

/-- Embeds posix `os.path.splitext`: splits off the extension beginning at
the last dot, provided that dot lies after the last `/` and the base name
has at least one non-dot character before it (leading dots are not an
extension). -/
def splitextL (p : List Char) : List Char × List Char :=
  match lastIdxOf '.' p with
  | none => (p, [])
  | some d =>
    let s : Nat := match lastIdxOf '/' p with
      | none => 0
      | some i => i + 1
    if s ≤ d ∧ ((p.drop s).take (d - s)).any (fun c => c ≠ '.') then
      (p.take d, p.drop d)
    else (p, [])

/-- Python slicing `l[:m]` where `m` may be negative (counts from the end,
clamped at zero). -/
def pySlice (l : List Char) (m : Int) : List Char :=
  if 0 ≤ m then l.take m.toNat else l.take (l.length - m.natAbs)

/-- The traversal removal, leading-slash strip and character replacement
steps of `sanitize_s3_key` (everything before the length cap). -/
def sanitizeCore (key : List Char) : List Char :=
  let k := removeDotDotSlash key
  let k := removeDotDotBackslash k
  let k := k.dropWhile (fun c => c = '/')
  k.map (fun c => if isBadChar c then '_' else c)

/-- Embeds `sanitize_s3_key` (lines 20–42): traversal removal, `lstrip('/')`,
character replacement, then the 255-length cap that reattaches the
extension computed by `os.path.splitext`. -/
def sanitize_s3_key (key : String) : String :=
  let k := sanitizeCore key.data
  if 255 < k.length then
    let ext := (splitextL k).2
    ⟨pySlice k (255 - (ext.length : Int)) ++ ext⟩
  else ⟨k⟩

/-- `true` when every character of `l` survives the sanitizer's dangerous
character filter. -/
def noBadChars (l : List Char) : Bool :=
  l.all (fun c => !(isBadChar c))

/-- Outcome of the `subprocess.run(['clamscan', ...])` invocation in
`scan_file`: an exit with a return code and captured stderr, a
`TimeoutExpired`, a `FileNotFoundError`, or any other exception. -/
inductive ScanOutcome where
  | exit (returncode : Int) (stderr : String)
  | timeout
  | notFound
  | exc (msg : String)
deriving DecidableEq, Repr

/-- Embeds `scan_file` (lines 45–87): maps the scanner invocation outcome to
`(is_infected, error_message)` exactly as the `try`/`except` chain does. -/
def scan_file (file_path : String) (o : ScanOutcome) : Bool × Option String :=
  match o with
  | .exit c stderr =>
    if c = 1 then (true, none)
    else if c = 0 then (false, none)
    else (false, some ("ClamAV scan failed with return code " ++ toString c ++ ": " ++ stderr))
  | .timeout => (false, some ("ClamAV scan timed out for " ++ file_path))
  | .notFound => (false, some "ClamAV (clamscan) not found. Please ensure ClamAV is installed.")
  | .exc m => (false, some ("Error scanning file " ++ file_path ++ ": " ++ m))

/-- A scanner outcome that `scan_file` reports as an error (anything except
exit code 0 or 1). -/
def scanOutcomeFails (o : ScanOutcome) : Bool :=
  match o with
  | .exit c _ => decide (c ≠ 0 ∧ c ≠ 1)
  | _ => true

example : sanitize_s3_key "....//etc/passwd" = "../etc/passwd" := by decide
example : sanitize_s3_key "a/b<c>.txt" = "a/b_c_.txt" := by decide
example : (scan_file "f" .timeout).2 = some "ClamAV scan timed out for f" := rfl

/-- Embeds posix `os.path.join(a, b)` for two components. -/
def pyJoin (a b : List Char) : List Char :=
  if b.take 1 = ['/'] then b
  else if a = [] then b
  else if a.getLast? = some '/' then a ++ b
  else a ++ '/' :: b

/-- Embeds posix `os.path.normpath`: collapses empty and `.` components and
resolves `..` components, preserving the leading-slash count (1 or 2)
exactly as CPython's `posixpath.normpath` does. -/
def normpathL (p : List Char) : List Char :=
  if p = [] then ['.']
  else
    let initialSlashes : Nat :=
      if p.take 1 = ['/'] then
        if p.take 2 = ['/', '/'] ∧ p.take 3 ≠ ['/', '/', '/'] then 2 else 1
      else 0
    let newComps := (p.splitOn '/').foldl (fun acc comp =>
      if comp = [] ∨ comp = ['.'] then acc
      else if comp ≠ ['.', '.'] ∨ (initialSlashes = 0 ∧ acc = []) ∨
          acc.getLast? = some ['.', '.'] then acc ++ [comp]
      else if acc ≠ [] then acc.dropLast
      else acc) []
    let res := List.replicate initialSlashes '/' ++ List.intercalate ['/'] newComps
    if res = [] then ['.'] else res

/-- Embeds `os.path.abspath` given the working directory: normalizes the
path, joining it onto `cwd` first when it is relative. -/
def abspathL (cwd p : List Char) : List Char :=
  if p.take 1 = ['/'] then normpathL p else normpathL (pyJoin cwd p)

/-- Embeds `str.startswith`: `l` begins with `pre`. -/
def isPrefixL (pre l : List Char) : Bool :=
  decide (l.take pre.length = pre)

/-- Per-object verdict kinds appearing in the `status` field of the
dictionaries built by `scan_s3_object`. -/
inductive Status where
  | clean
  | infected
  | error
  | skipped
deriving DecidableEq, Repr

/-- The result dictionary built by `scan_s3_object`; optional fields model
keys that only some return paths include. -/
structure ObjectScanResult where
  key : String
  status : Status
  size_mb : Option ℚ := none
  error : Option String := none
  reason : Option String := none
deriving DecidableEq, Repr

/-- Outcome of `s3_client.download_file`: success, a `botocore`
`ClientError` (with error code and message), or any other exception. -/
inductive DlOutcome where
  | ok
  | clientError (code msg : String)
  | exc (msg : String)
deriving DecidableEq, Repr

/-- External-effect events recorded alongside results, used to state which
store/filesystem/scanner operations an execution performs. -/
inductive FsEvent where
  | headObject (bucket key : String)
  | mkdtemp (dir : String)
  | downloadFile (bucket key : String) (path : String)
  | clamscan (path : String)
  | rmtree (dir : String) (ok : Bool)
  | listObjects (bucket : String)
deriving DecidableEq, Repr

/-- Environment of external outcomes for one `scan_s3_object` invocation:
what `head_object` reports, the directory `mkdtemp` yields, the current
working directory, how `download_file` behaves, whether the downloaded file
exists afterwards, the scanner outcome, and how cleanup behaves. -/
structure ObjEnv where
  headResult : Except String Nat
  tempDir : String
  cwd : String
  downloadResult : DlOutcome
  fileExistsAfterDownload : Bool
  scanOutcome : ScanOutcome
  dirGoneBeforeCleanup : Bool
  rmtreeFails : Bool

/-- Embeds `get_file_size_mb` (lines 90–108): `ContentLength / (1024*1024)`
on success, `0.0` on a `ClientError`. -/
def get_file_size_mb (h : Except String Nat) : ℚ :=
  match h with
  | .ok sizeBytes => (sizeBytes : ℚ) / (1024 * 1024)
  | .error _ => 0

/-- The temp file path built at lines 144–150: `os.path.normpath` of
`os.path.join(temp_dir, 'downloaded_file' + ext)` where `ext` is the
sanitized key's extension or `.tmp`. -/
def tempFilePath (oe : ObjEnv) (key : String) : List Char :=
  let safe_key := sanitize_s3_key key
  let ext0 := (splitextL safe_key.data).2
  let ext := if ext0 = [] then ".tmp".data else ext0
  normpathL (pyJoin oe.tempDir.data ("downloaded_file".data ++ ext))

/-- The containment check at lines 151 and 163:
`os.path.abspath(temp_file_path).startswith(os.path.abspath(temp_dir))`. -/
def pathOk (oe : ObjEnv) (key : String) : Bool :=
  isPrefixL (abspathL oe.cwd.data oe.tempDir.data) (abspathL oe.cwd.data (tempFilePath oe key))

/-- The `finally` block at lines 209–216: `rmtree` is attempted only when
`temp_dir` is truthy and the directory still exists; a failure is caught
and swallowed. -/
def cleanupEvents (td : String) (dirGone rmtreeFails : Bool) : List FsEvent :=
  if td ≠ "" ∧ dirGone = false then
    if rmtreeFails then [.rmtree td false] else [.rmtree td true]
  else []

/-- The body of `scan_s3_object`'s `try` block after the size gate and
`mkdtemp` (lines 141–208), with the two `except` handlers folded in: every
raise inside the block is translated to the error dictionary the matching
handler returns. -/
def scanBody (oe : ObjEnv) (bucket key : String) (size : ℚ) : ObjectScanResult × List FsEvent :=
  let tfp : String := ⟨tempFilePath oe key⟩
  if pathOk oe key then
    match oe.downloadResult with
    | .clientError code msg =>
      ({ key := key, status := .error,
         error := some ("Error accessing S3 object " ++ key ++ ": " ++ code ++ " - " ++ msg) },
       [.downloadFile bucket key tfp])
    | .exc msg =>
      ({ key := key, status := .error,
         error := some ("Unexpected error processing " ++ key ++ ": " ++ msg) },
       [.downloadFile bucket key tfp])
    | .ok =>
      if oe.fileExistsAfterDownload then
        if pathOk oe key then
          let res := scan_file tfp oe.scanOutcome
          match res.2 with
          | some e =>
            ({ key := key, status := .error, error := some e, size_mb := some size },
             [.downloadFile bucket key tfp, .clamscan tfp])
          | none =>
            if res.1 then
              ({ key := key, status := .infected, size_mb := some size },
               [.downloadFile bucket key tfp, .clamscan tfp])
            else
              ({ key := key, status := .clean, size_mb := some size },
               [.downloadFile bucket key tfp, .clamscan tfp])
        else
          ({ key := key, status := .error,
             error := some ("Unexpected error processing " ++ key ++
               ": Security violation: File path outside temp directory: " ++ tfp) },
           [.downloadFile bucket key tfp])
      else
        ({ key := key, status := .error,
           error := some ("Unexpected error processing " ++ key ++
             ": Downloaded file not found: " ++ tfp) },
         [.downloadFile bucket key tfp])
  else
    ({ key := key, status := .error,
       error := some ("Unexpected error processing " ++ key ++
         ": Invalid file path detected: " ++ tfp) },
     [])

/-- Embeds `scan_s3_object` (lines 111–216): size gate, workspace creation,
sanitization, containment checks, download, scan, and the unconditional
`finally` cleanup; paired with the list of external operations performed. -/
def scan_s3_object (oe : ObjEnv) (bucket key : String) : ObjectScanResult × List FsEvent :=
  let size := get_file_size_mb oe.headResult
  if 100 < size then
    ({ key := key, status := .skipped,
       reason := some "File size exceeds 100 MB limit", size_mb := some size },
     [.headObject bucket key])
  else
    let p := scanBody oe bucket key size
    (p.1, .headObject bucket key :: .mkdtemp oe.tempDir ::
      (p.2 ++ cleanupEvents oe.tempDir oe.dirGoneBeforeCleanup oe.rmtreeFails))

/-- One entry of the event's `Records` list (an S3 notification record). -/
structure S3Record where
  eventSource : String
  bucket : String
  key : String
deriving DecidableEq, Repr

/-- The Lambda event: `records = some rs` models an event whose `Records`
key is present with list `rs`; `none` models a manual-trigger event. -/
structure LambdaEvent where
  records : Option (List S3Record)
deriving DecidableEq, Repr

/-- The `scan_results` summary dictionary built by `lambda_handler`. -/
structure ScanSummary where
  total_scanned : Nat
  clean : Nat
  infected : Nat
  errors : Nat
  skipped : Nat
  details : List ObjectScanResult
  error : Option String
deriving DecidableEq, Repr

/-- The summary as initialized at lines 261–268 (no `error` key). -/
def emptySummary : ScanSummary :=
  { total_scanned := 0, clean := 0, infected := 0, errors := 0, skipped := 0,
    details := [], error := none }

/-- The result-aggregation step repeated at lines 284–295 and 313–324:
append to `details`, bump `total_scanned`, and bump the counter that the
`if`/`elif` chain selects for the result's status. -/
def foldResult (acc : ScanSummary) (r : ObjectScanResult) : ScanSummary :=
  let acc := { acc with
      details := acc.details ++ [r],
      total_scanned := acc.total_scanned + 1 }
  if r.status = .infected then { acc with infected := acc.infected + 1 }
  else if r.status = .clean then { acc with clean := acc.clean + 1 }
  else if r.status = .error then { acc with errors := acc.errors + 1 }
  else if r.status = .skipped then { acc with skipped := acc.skipped + 1 }
  else acc

/-- Environment of external outcomes for one `lambda_handler` invocation:
the `S3_BUCKET_NAME` variable, the (paginated) listing outcome, the
per-call object environments indexed by call order, the successive values
of `context.get_remaining_time_in_millis()`, and the truthiness of
`context`. -/
structure HandlerEnv where
  bucketEnvVar : Option String
  listResult : Except String (List String)
  objEnv : Nat → ObjEnv
  remainingTime : Nat → Int
  hasContext : Bool

/-- The S3-event loop at lines 277–295: each record whose `eventSource` is
`aws:s3` is scanned and folded into the summary. -/
def processRecords (objEnv : Nat → ObjEnv) (recs : List S3Record)
    (acc : ScanSummary) (idx : Nat) : ScanSummary × List FsEvent :=
  match recs with
  | [] => (acc, [])
  | r :: rest =>
    if r.eventSource = "aws:s3" then
      let p := scan_s3_object (objEnv idx) r.bucket r.key
      let q := processRecords objEnv rest (foldResult acc p.1) (idx + 1)
      (q.1, p.2 ++ q.2)
    else processRecords objEnv rest acc idx

/-- The full-scan loop at lines 307–324: before each key, when a context is
present and its remaining time is below 30000 ms, the loop breaks;
otherwise the key is scanned and folded. -/
def batchScan (objEnv : Nat → ObjEnv) (rt : Nat → Int) (hasCtx : Bool)
    (bucket : String) (keys : List String) (acc : ScanSummary) (idx : Nat) :
    ScanSummary × List FsEvent :=
  match keys with
  | [] => (acc, [])
  | k :: rest =>
    if hasCtx = true ∧ rt idx < 30000 then (acc, [])
    else
      let p := scan_s3_object (objEnv idx) bucket k
      let q := batchScan objEnv rt hasCtx bucket rest (foldResult acc p.1) (idx + 1)
      (q.1, p.2 ++ q.2)

/-- Embeds `lambda_handler` (lines 246–342): the `Records` branch, the
manual full-scan branch guarded by a truthy bucket name (with the
listing-failure `except` setting the summary-level `error`), and the
no-bucket fallback; paired with the external operations performed. -/
def lambda_handler (env : HandlerEnv) (ev : LambdaEvent) : ScanSummary × List FsEvent :=
  match ev.records with
  | some recs => processRecords env.objEnv recs emptySummary 0
  | none =>
    match env.bucketEnvVar with
    | some b =>
      if b = "" then
        ({ emptySummary with
           error := some "S3_BUCKET_NAME environment variable not set and no S3 event provided" },
         [])
      else
        match env.listResult with
        | .error e =>
          ({ emptySummary with error := some ("Error during full bucket scan: " ++ e) },
           [.listObjects b])
        | .ok keys =>
          let p := batchScan env.objEnv env.remainingTime env.hasContext b keys emptySummary 0
          (p.1, .listObjects b :: p.2)
    | none =>
      ({ emptySummary with
         error := some "S3_BUCKET_NAME environment variable not set and no S3 event provided" },
       [])

/-- A benign concrete object environment used by concrete test inputs:
small clean file, everything succeeds. -/
def cleanObjEnv : ObjEnv :=
  { headResult := .ok 1024, tempDir := "/tmp/tmpabc", cwd := "/var/task",
    downloadResult := .ok, fileExistsAfterDownload := true,
    scanOutcome := .exit 0 "", dirGoneBeforeCleanup := false, rmtreeFails := false }

example :
    (scan_s3_object cleanObjEnv "b" "dir/file.txt").1.status = Status.clean := by
  with_unfolding_all decide

example :
    (scan_s3_object cleanObjEnv "b" "dir/file.txt").2 =
      [.headObject "b" "dir/file.txt", .mkdtemp "/tmp/tmpabc",
       .downloadFile "b" "dir/file.txt" "/tmp/tmpabc/downloaded_file.txt",
       .clamscan "/tmp/tmpabc/downloaded_file.txt", .rmtree "/tmp/tmpabc" true] := by
  with_unfolding_all decide

example :
    (scan_s3_object { cleanObjEnv with scanOutcome := .exit 1 "virus" } "b" "k").1.status =
      Status.infected := by with_unfolding_all decide

example :
    (scan_s3_object { cleanObjEnv with headResult := .ok 209715200 } "b" "k").1.status =
      Status.skipped := by with_unfolding_all decide

lemma sanitizeCore_noBad (key : List Char) : noBadChars (sanitizeCore key) = true := by
  unfold sanitizeCore noBadChars
  rw [List.all_map, List.all_eq_true]
  intro c _
  by_cases h : isBadChar c = true
  · simp only [Function.comp, h, if_pos]
    decide
  · simp [Function.comp, h]

lemma splitextL_snd_subset (p : List Char) : (splitextL p).2 ⊆ p := by
  unfold splitextL
  rcases lastIdxOf '.' p with _ | d
  · simp
  · dsimp only
    split
    · exact List.drop_subset _ _
    · simp

lemma pySlice_subset (l : List Char) (m : Int) : pySlice l m ⊆ l := by
  unfold pySlice
  split <;> exact List.take_subset _ _

lemma mem_sanitize_of_mem (key : String) (c : Char)
    (hc : c ∈ (sanitize_s3_key key).data) : c ∈ sanitizeCore key.data := by
  unfold sanitize_s3_key at hc
  by_cases h : 255 < (sanitizeCore key.data).length
  · rw [if_pos h] at hc
    rcases List.mem_append.mp hc with h1 | h2
    · exact pySlice_subset _ _ h1
    · exact splitextL_snd_subset _ h2
  · rw [if_neg h] at hc
    exact hc

/-- Claim C2 (status: code bug in the source). The removal of `../` in
`sanitize_s3_key` is a single, non-iterated pass, so the interleaved input
`....//etc/passwd` sanitizes to `../etc/passwd`, which still begins with a
`..` path segment — contradicting the function's stated purpose of
preventing path traversal. -/
theorem sanitize_traversal_residual :
    sanitize_s3_key "....//etc/passwd" = "../etc/passwd" ∧
    (sanitize_s3_key "....//etc/passwd").data.take 3 = ['.', '.', '/'] :=
  ⟨by decide, by decide⟩

/-- A key of 302 characters whose extension (in the `os.path.splitext`
sense) is 301 characters long. -/
def longExtKey : String := ⟨'a' :: '.' :: List.replicate 300 'b'⟩

set_option maxRecDepth 8000 in
/-- Claim C8, counterexample: the claimed 255-character bound fails. For
`longExtKey` the truncation step slices with a negative index (Python
`key[:255-len(ext)]` with `len(ext) = 301`) and then reattaches the whole
301-character extension, yielding a 557-character output. -/
theorem sanitize_length_overflow :
    255 < (sanitize_s3_key longExtKey).length := by decide

/-- Claim C8 (amended): `sanitize_s3_key` is total, its output never
contains a character from `<>:"|?*`, and — provided the extension computed
at truncation time is itself at most 255 characters — the output has
length at most 255; when truncation occurs the extension is preserved as a
suffix of the output. -/
theorem sanitize_total_safe (key : String)
    (hext : ((splitextL (sanitizeCore key.data)).2).length ≤ 255) :
    noBadChars (sanitize_s3_key key).data = true ∧
    (sanitize_s3_key key).length ≤ 255 ∧
    (255 < (sanitizeCore key.data).length →
      (splitextL (sanitizeCore key.data)).2 <:+ (sanitize_s3_key key).data) := by
  refine ⟨?_, ?_, ?_⟩
  · rw [noBadChars, List.all_eq_true]
    intro c hc
    have h2 := sanitizeCore_noBad key.data
    rw [noBadChars, List.all_eq_true] at h2
    exact h2 c (mem_sanitize_of_mem key c hc)
  · show (sanitize_s3_key key).data.length ≤ 255
    unfold sanitize_s3_key
    by_cases h : 255 < (sanitizeCore key.data).length
    · rw [if_pos h]
      have he : ((255 : Int) - ((splitextL (sanitizeCore key.data)).2.length : Int)).toNat =
          255 - (splitextL (sanitizeCore key.data)).2.length := by omega
      have hp : (pySlice (sanitizeCore key.data)
          (255 - ((splitextL (sanitizeCore key.data)).2.length : Int))).length ≤
          255 - (splitextL (sanitizeCore key.data)).2.length := by
        rw [pySlice, if_pos (by omega : (0 : Int) ≤ 255 - ((splitextL (sanitizeCore key.data)).2.length : Int))]
        rw [List.length_take, he]
        omega
      simp only [List.length_append]
      omega
    · rw [if_neg h]
      exact Nat.le_of_not_lt h
  · intro h
    unfold sanitize_s3_key
    rw [if_pos h]
    exact List.suffix_append _ _

/-- Claim C8, witness. -/
theorem sanitize_total_safe_witness :
    ((splitextL (sanitizeCore ("report.pdf").data)).2).length ≤ 255 ∧
    noBadChars (sanitize_s3_key "report.pdf").data = true ∧
    (sanitize_s3_key "report.pdf").length ≤ 255 := by
  have h : ((splitextL (sanitizeCore ("report.pdf").data)).2).length ≤ 255 := by decide
  exact ⟨h, (sanitize_total_safe "report.pdf" h).1, (sanitize_total_safe "report.pdf" h).2.1⟩

/-- Claim C5: when the probed size in MB strictly exceeds the 100 MB limit,
`scan_s3_object` returns a `skipped` result carrying the size-limit reason,
and performs only the `head_object` probe — no workspace creation and no
download. -/
theorem size_gate_skips (oe : ObjEnv) (bucket key : String)
    (h : 100 < get_file_size_mb oe.headResult) :
    (scan_s3_object oe bucket key).1.status = Status.skipped ∧
    (scan_s3_object oe bucket key).1.reason = some "File size exceeds 100 MB limit" ∧
    (scan_s3_object oe bucket key).2 = [FsEvent.headObject bucket key] := by
  rw [scan_s3_object]
  simp only [if_pos h]
  exact ⟨trivial, trivial, trivial⟩

/-- An object environment whose probed size is 200 MB. -/
def bigObjEnv : ObjEnv := { cleanObjEnv with headResult := .ok 209715200 }

/-- Claim C5, witness. -/
theorem size_gate_skips_witness :
    100 < get_file_size_mb bigObjEnv.headResult ∧
    (scan_s3_object bigObjEnv "b" "k").1.status = Status.skipped := by
  have h : 100 < get_file_size_mb bigObjEnv.headResult := by with_unfolding_all decide
  exact ⟨h, (size_gate_skips bigObjEnv "b" "k" h).1⟩

lemma scanBody_key (oe : ObjEnv) (bucket key : String) (size : ℚ) :
    (scanBody oe bucket key size).1.key = key := by
  unfold scanBody
  dsimp only
  repeat' split
  all_goals rfl

lemma scan_s3_object_key (oe : ObjEnv) (bucket key : String) :
    (scan_s3_object oe bucket key).1.key = key := by
  unfold scan_s3_object
  dsimp only
  split
  · rfl
  · exact scanBody_key oe bucket key _

lemma foldResult_total (acc : ScanSummary) (r : ObjectScanResult) :
    (foldResult acc r).total_scanned = acc.total_scanned + 1 := by
  rcases r with ⟨k, st, s, e, re⟩
  cases st <;> simp [foldResult]

lemma foldResult_details (acc : ScanSummary) (r : ObjectScanResult) :
    (foldResult acc r).details = acc.details ++ [r] := by
  rcases r with ⟨k, st, s, e, re⟩
  cases st <;> simp [foldResult]

lemma foldResult_error (acc : ScanSummary) (r : ObjectScanResult) :
    (foldResult acc r).error = acc.error := by
  rcases r with ⟨k, st, s, e, re⟩
  cases st <;> simp [foldResult]

lemma foldResult_sum (acc : ScanSummary) (r : ObjectScanResult) :
    (foldResult acc r).clean + (foldResult acc r).infected +
      (foldResult acc r).errors + (foldResult acc r).skipped =
    acc.clean + acc.infected + acc.errors + acc.skipped + 1 := by
  rcases r with ⟨k, st, s, e, re⟩
  cases st <;> simp [foldResult] <;> omega

/-- The aggregation invariant of the summary: `total_scanned` equals the
sum of the four status counters and the length of `details`. -/
def summaryInv (s : ScanSummary) : Prop :=
  s.total_scanned = s.clean + s.infected + s.errors + s.skipped ∧
  s.total_scanned = s.details.length

lemma summaryInv_empty : summaryInv emptySummary := ⟨rfl, rfl⟩

lemma summaryInv_fold (acc : ScanSummary) (r : ObjectScanResult)
    (h : summaryInv acc) : summaryInv (foldResult acc r) := by
  constructor
  · rw [foldResult_total, foldResult_sum, h.1]
  · rw [foldResult_total, foldResult_details, List.length_append, h.2]
    rfl

lemma summaryInv_processRecords (objEnv : Nat → ObjEnv) (recs : List S3Record) :
    ∀ (acc : ScanSummary) (idx : Nat), summaryInv acc →
      summaryInv (processRecords objEnv recs acc idx).1 := by
  induction recs with
  | nil => intro acc idx h; simpa [processRecords] using h
  | cons r rest ih =>
    intro acc idx h
    by_cases hsrc : r.eventSource = "aws:s3"
    · rw [processRecords, if_pos hsrc]
      exact ih _ _ (summaryInv_fold _ _ h)
    · rw [processRecords, if_neg hsrc]
      exact ih _ _ h

lemma summaryInv_batchScan (objEnv : Nat → ObjEnv) (rt : Nat → Int) (hasCtx : Bool)
    (bucket : String) (keys : List String) :
    ∀ (acc : ScanSummary) (idx : Nat), summaryInv acc →
      summaryInv (batchScan objEnv rt hasCtx bucket keys acc idx).1 := by
  induction keys with
  | nil => intro acc idx h; simpa [batchScan] using h
  | cons k rest ih =>
    intro acc idx h
    by_cases hstop : hasCtx = true ∧ rt idx < 30000
    · rw [batchScan, if_pos hstop]
      exact h
    · rw [batchScan, if_neg hstop]
      exact ih _ _ (summaryInv_fold _ _ h)

/-- Claim C10: on every exit path of `lambda_handler`, reactive or batch,
`total_scanned` equals `clean + infected + errors + skipped` and also
equals the length of the `details` list. -/
theorem summary_counters_consistent (env : HandlerEnv) (ev : LambdaEvent) :
    (lambda_handler env ev).1.total_scanned =
      (lambda_handler env ev).1.clean + (lambda_handler env ev).1.infected +
      (lambda_handler env ev).1.errors + (lambda_handler env ev).1.skipped ∧
    (lambda_handler env ev).1.total_scanned = (lambda_handler env ev).1.details.length := by
  have h : summaryInv (lambda_handler env ev).1 := by
    unfold lambda_handler
    rcases ev.records with _ | recs
    · rcases env.bucketEnvVar with _ | b
      · exact ⟨rfl, rfl⟩
      · dsimp only
        by_cases hb : b = ""
        · rw [if_pos hb]; exact ⟨rfl, rfl⟩
        · rw [if_neg hb]
          rcases env.listResult with e | keys
          · exact ⟨rfl, rfl⟩
          · exact summaryInv_batchScan _ _ _ _ _ _ _ summaryInv_empty
    · exact summaryInv_processRecords _ _ _ _ summaryInv_empty
  exact h

/-- Claim C7: a listing-level failure aborts the batch before any object is
processed — the summary carries a top-level `error`, all counters are zero,
`details` is empty, and the only external operation performed is the
listing call itself. -/
theorem listing_failure_aborts (env : HandlerEnv) (b e : String)
    (hb : env.bucketEnvVar = some b) (hbne : b ≠ "") (hlist : env.listResult = .error e) :
    lambda_handler env ⟨none⟩ =
      ({ total_scanned := 0, clean := 0, infected := 0, errors := 0, skipped := 0,
         details := [], error := some ("Error during full bucket scan: " ++ e) },
       [FsEvent.listObjects b]) := by
  unfold lambda_handler
  rw [hb]
  dsimp only
  rw [if_neg hbne, hlist]
  rfl

/-- A concrete handler environment whose listing call fails. -/
def listFailEnv : HandlerEnv :=
  { bucketEnvVar := some "mybucket", listResult := .error "AccessDenied",
    objEnv := fun _ => cleanObjEnv, remainingTime := fun _ => 600000, hasContext := true }

/-- Claim C7, witness. -/
theorem listing_failure_aborts_witness :
    listFailEnv.bucketEnvVar = some "mybucket" ∧
    (lambda_handler listFailEnv ⟨none⟩).1.error =
      some "Error during full bucket scan: AccessDenied" ∧
    (lambda_handler listFailEnv ⟨none⟩).1.total_scanned = 0 ∧
    (lambda_handler listFailEnv ⟨none⟩).1.details = [] := by
  have h := listing_failure_aborts listFailEnv "mybucket" "AccessDenied" rfl (by decide) rfl
  refine ⟨rfl, ?_, ?_, ?_⟩
  · rw [h]
    rfl
  · rw [h]
  · rw [h]

/-- A concrete handler environment with no bucket configured. -/
def noBucketEnv : HandlerEnv :=
  { bucketEnvVar := none, listResult := .ok [], objEnv := fun _ => cleanObjEnv,
    remainingTime := fun _ => 600000, hasContext := true }

/-- Claim C9, counterexample: an invocation event that contains an empty
`Records` list (so it holds no notification records) with no bucket
configured does NOT produce the no-bucket error summary — the code's
`'Records' in event` membership test selects the reactive branch, which
returns a zero summary with no `error` field at all. -/
theorem empty_records_no_error :
    (lambda_handler noBucketEnv ⟨some []⟩).1.error = none ∧
    (lambda_handler noBucketEnv ⟨some []⟩).1.total_scanned = 0 ∧
    (lambda_handler noBucketEnv ⟨some []⟩).1.details = [] :=
  ⟨rfl, rfl, rfl⟩

/-- Claim C9 (amended): if the event lacks a `Records` field entirely and
no bucket name is configured, the handler returns immediately with the
no-bucket error message, all counters zero, empty details, and performs no
store or scanner operation. -/
theorem no_bucket_error (env : HandlerEnv) (ev : LambdaEvent)
    (h1 : ev.records = none) (h2 : env.bucketEnvVar = none) :
    lambda_handler env ev =
      ({ total_scanned := 0, clean := 0, infected := 0, errors := 0, skipped := 0,
         details := [],
         error := some "S3_BUCKET_NAME environment variable not set and no S3 event provided" },
       []) := by
  unfold lambda_handler
  rw [h1, h2]
  rfl

/-- Claim C9, witness. -/
theorem no_bucket_error_witness :
    noBucketEnv.bucketEnvVar = none ∧
    (lambda_handler noBucketEnv ⟨none⟩).1.error =
      some "S3_BUCKET_NAME environment variable not set and no S3 event provided" ∧
    (lambda_handler noBucketEnv ⟨none⟩).2 = [] := by
  have h := no_bucket_error noBucketEnv ⟨none⟩ rfl rfl
  exact ⟨rfl, by rw [h], by rw [h]⟩

lemma batchScan_stop_spec (objEnv : Nat → ObjEnv) (rt : Nat → Int) (bucket : String) :
    ∀ (keys : List String) (acc : ScanSummary) (idx m : Nat),
      m ≤ keys.length →
      (∀ j, j < m → ¬ rt (idx + j) < 30000) →
      (m = keys.length ∨ rt (idx + m) < 30000) →
      (batchScan objEnv rt true bucket keys acc idx).1.total_scanned = acc.total_scanned + m ∧
      (batchScan objEnv rt true bucket keys acc idx).1.details.map (fun r => r.key) =
        acc.details.map (fun r => r.key) ++ keys.take m ∧
      (batchScan objEnv rt true bucket keys acc idx).1.error = acc.error := by
  intro keys
  induction keys with
  | nil =>
    intro acc idx m hm _ _
    have hm0 : m = 0 := Nat.le_zero.mp hm
    subst hm0
    simp [batchScan]
  | cons k rest ih =>
    intro acc idx m hm hok hstop
    cases m with
    | zero =>
      have hlow : rt idx < 30000 := by
        rcases hstop with h | h
        · exact absurd h (by simp)
        · simpa using h
      rw [batchScan, if_pos ⟨rfl, hlow⟩]
      simp
    | succ m' =>
      have hpass : ¬ rt idx < 30000 := by
        have := hok 0 (Nat.succ_pos m')
        simpa using this
      rw [batchScan, if_neg (fun hc => hpass hc.2)]
      dsimp only
      have hok' : ∀ j, j < m' → ¬ rt (idx + 1 + j) < 30000 := by
        intro j hj
        have harg : idx + 1 + j = idx + (j + 1) := by omega
        rw [harg]
        exact hok (j + 1) (by omega)
      have hstop' : m' = rest.length ∨ rt (idx + 1 + m') < 30000 := by
        rcases hstop with h | h
        · left
          simpa using h
        · right
          have harg : idx + 1 + m' = idx + (m' + 1) := by omega
          rw [harg]
          exact h
      have ih' := ih (foldResult acc (scan_s3_object (objEnv idx) bucket k).1) (idx + 1) m'
        (by simpa using hm) hok' hstop'
      refine ⟨?_, ?_, ?_⟩
      · rw [ih'.1, foldResult_total]
        omega
      · rw [ih'.2.1, foldResult_details, List.map_append, List.take_succ_cons]
        simp [scan_s3_object_key]
      · rw [ih'.2.2, foldResult_error]

/-- Claim C6: in batch mode the remaining-time function is consulted before
each object; with checks counted from zero, if every check before the
`(N-3)`-th reports at least the 30000 ms margin and the `(N-3)`-th check
reports a value below it, the loop stops having processed exactly `N-3`
objects: `total_scanned = N-3`, `details` holds exactly the first `N-3`
keys in order, and no error of any kind is recorded for the remainder. -/
theorem time_budget_stops (env : HandlerEnv) (b : String) (keys : List String) (n : Nat)
    (hb : env.bucketEnvVar = some b) (hbne : b ≠ "")
    (hlist : env.listResult = .ok keys) (hctx : env.hasContext = true)
    (hn : keys.length = n) (h3 : 3 ≤ n)
    (hok : ∀ i, i < n - 3 → ¬ env.remainingTime i < 30000)
    (hlow : env.remainingTime (n - 3) < 30000) :
    (lambda_handler env ⟨none⟩).1.total_scanned = n - 3 ∧
    (lambda_handler env ⟨none⟩).1.details.length = n - 3 ∧
    (lambda_handler env ⟨none⟩).1.error = none ∧
    (lambda_handler env ⟨none⟩).1.details.map (fun r => r.key) = keys.take (n - 3) := by
  have hmain := batchScan_stop_spec env.objEnv env.remainingTime b keys emptySummary 0 (n - 3)
    (by omega) (fun j hj => by simpa using hok j hj) (Or.inr (by simpa using hlow))
  have hred : lambda_handler env ⟨none⟩ =
      ((batchScan env.objEnv env.remainingTime env.hasContext b keys emptySummary 0).1,
        FsEvent.listObjects b ::
          (batchScan env.objEnv env.remainingTime env.hasContext b keys emptySummary 0).2) := by
    unfold lambda_handler
    rw [hb]
    dsimp only
    rw [if_neg hbne, hlist]
  rw [hred, hctx]
  dsimp only
  have hlen : ((batchScan env.objEnv env.remainingTime true b keys emptySummary 0).1.details.map
      (fun r => r.key)).length = (keys.take (n - 3)).length := by
    rw [hmain.2.1]
    simp [emptySummary]
  refine ⟨?_, ?_, ?_, ?_⟩
  · rw [hmain.1]
    simp [emptySummary]
  · rw [List.length_map] at hlen
    rw [hlen, List.length_take]
    omega
  · rw [hmain.2.2]
    rfl
  · rw [hmain.2.1]
    simp [emptySummary]

/-- A concrete batch environment of four objects whose second remaining-time
check (check index 1) reports below the 30 s margin. -/
def budgetEnv : HandlerEnv :=
  { bucketEnvVar := some "bkt", listResult := .ok ["k0", "k1", "k2", "k3"],
    objEnv := fun _ => cleanObjEnv,
    remainingTime := fun i => if i = 0 then 120000 else 10000, hasContext := true }

/-- Claim C6, witness: with `N = 4`, the check at index `N-3 = 1` is below
the margin, and exactly one object is processed. -/
theorem time_budget_stops_witness :
    budgetEnv.remainingTime 1 < 30000 ∧
    (lambda_handler budgetEnv ⟨none⟩).1.total_scanned = 1 ∧
    (lambda_handler budgetEnv ⟨none⟩).1.error = none := by
  have h := time_budget_stops budgetEnv "bkt" ["k0", "k1", "k2", "k3"] 4 rfl (by decide) rfl rfl
    rfl (by omega)
    (fun i hi => by
      have hi0 : i = 0 := by omega
      subst hi0
      decide)
    (by decide)
  exact ⟨by decide, h.1, h.2.2.1⟩

lemma batchScan_all_length (objEnv : Nat → ObjEnv) (rt : Nat → Int) (bucket : String) :
    ∀ (keys : List String) (acc : ScanSummary) (idx : Nat),
      (batchScan objEnv rt false bucket keys acc idx).1.details.length =
        acc.details.length + keys.length := by
  intro keys
  induction keys with
  | nil =>
    intro acc idx
    simp [batchScan]
  | cons k rest ih =>
    intro acc idx
    rw [batchScan, if_neg (by simp)]
    dsimp only
    rw [ih, foldResult_details]
    simp
    omega

/-- Claim C4: `scan_file` maps a malware-found exit status (1) to the
infected verdict, a no-malware exit status (0) to clean, and every other
exit status, a timeout, a missing `clamscan` executable, or any other
invocation exception to a non-raising error verdict with a diagnostic (the
timeout diagnostic mentions the timeout); and in a batch, arbitrary
per-object outcomes — scanner failures included — never abort processing
of the remaining objects. -/
theorem scan_file_verdicts (p stderr m b : String) (c : Int) (env : HandlerEnv)
    (keys : List String) :
    scan_file p (.exit 1 stderr) = (true, none) ∧
    scan_file p (.exit 0 stderr) = (false, none) ∧
    (c ≠ 1 → c ≠ 0 → (scan_file p (.exit c stderr)).1 = false ∧
      (scan_file p (.exit c stderr)).2.isSome = true) ∧
    (scan_file p .timeout).2 = some ("ClamAV scan timed out for " ++ p) ∧
    "timed out".data <:+: ("ClamAV scan timed out for " ++ p).data ∧
    (scan_file p .notFound).2.isSome = true ∧
    (scan_file p (.exc m)).2.isSome = true ∧
    (env.bucketEnvVar = some b → b ≠ "" → env.listResult = .ok keys →
      env.hasContext = false →
      (lambda_handler env ⟨none⟩).1.details.length = keys.length) := by
  refine ⟨by simp [scan_file], by simp [scan_file], ?_, rfl, ?_, rfl, rfl, ?_⟩
  · intro h1 h0
    simp [scan_file, h1, h0]
  · refine ⟨"ClamAV scan ".data, " for ".data ++ p.data, ?_⟩
    have hr : ("ClamAV scan timed out for " ++ p).data =
        "ClamAV scan timed out for ".data ++ p.data := rfl
    have hl : "ClamAV scan ".data ++ "timed out".data ++ " for ".data =
        "ClamAV scan timed out for ".data := by decide
    rw [hr, ← hl]
    simp [List.append_assoc]
  · intro hb hbne hlist hctx
    unfold lambda_handler
    rw [hb]
    dsimp only
    rw [if_neg hbne, hlist]
    dsimp only
    rw [hctx]
    have h := batchScan_all_length env.objEnv env.remainingTime b keys emptySummary 0
    rw [h]
    simp [emptySummary]

/-- A concrete batch environment of two objects where scanning the first
object times out (a scanner failure) and the second is clean. -/
def errScanEnv : HandlerEnv :=
  { bucketEnvVar := some "bkt", listResult := .ok ["k0", "k1"],
    objEnv := fun i => if i = 0 then { cleanObjEnv with scanOutcome := .timeout } else cleanObjEnv,
    remainingTime := fun _ => 600000, hasContext := false }

/-- Claim C4, witness: exit status 2 maps to an error verdict, and a batch
whose first object's scan fails still processes both objects. -/
theorem scan_file_verdicts_witness :
    ((2 : Int) ≠ 1) ∧ ((2 : Int) ≠ 0) ∧
    (scan_file "f" (.exit 2 "boom")).2.isSome = true ∧
    (lambda_handler errScanEnv ⟨none⟩).1.details.length = 2 := by
  have h := scan_file_verdicts "f" "boom" "m" "bkt" 2 errScanEnv ["k0", "k1"]
  exact ⟨by decide, by decide, (h.2.2.1 (by decide) (by decide)).2,
    h.2.2.2.2.2.2.2 rfl (by decide) rfl rfl⟩

/-- A download outcome that raises (anything except success). -/
def dlFails : DlOutcome → Bool
  | .ok => false
  | _ => true

lemma scan_file_snd_isSome (p : String) (o : ScanOutcome) :
    (scan_file p o).2.isSome = scanOutcomeFails o := by
  rcases o with ⟨c, stderr⟩ | _ | _ | m
  · by_cases h1 : c = 1
    · subst h1
      simp [scan_file, scanOutcomeFails]
    · by_cases h0 : c = 0
      · subst h0
        simp [scan_file, scanOutcomeFails]
      · simp [scan_file, scanOutcomeFails, h1, h0]
  · rfl
  · rfl
  · rfl

lemma scanBody_dl_error (oe : ObjEnv) (bucket key : String) (size : ℚ)
    (h : dlFails oe.downloadResult = true) :
    (scanBody oe bucket key size).1.status = Status.error := by
  unfold scanBody
  dsimp only
  by_cases hp : pathOk oe key = true
  · rw [if_pos hp]
    rcases hdl : oe.downloadResult with _ | ⟨c, msg⟩ | msg
    · rw [hdl] at h
      exact absurd h (by decide)
    · rfl
    · rfl
  · rw [if_neg hp]

lemma scanBody_missing_error (oe : ObjEnv) (bucket key : String) (size : ℚ)
    (h : oe.fileExistsAfterDownload = false) :
    (scanBody oe bucket key size).1.status = Status.error := by
  unfold scanBody
  dsimp only
  by_cases hp : pathOk oe key = true
  · rw [if_pos hp]
    rcases hdl : oe.downloadResult with _ | ⟨c, msg⟩ | msg
    · rw [h]
      rfl
    · rfl
    · rfl
  · rw [if_neg hp]

lemma scanBody_scan_error (oe : ObjEnv) (bucket key : String) (size : ℚ)
    (h : scanOutcomeFails oe.scanOutcome = true) :
    (scanBody oe bucket key size).1.status = Status.error := by
  unfold scanBody
  dsimp only
  by_cases hp : pathOk oe key = true
  · rw [if_pos hp]
    rcases hdl : oe.downloadResult with _ | ⟨c, msg⟩ | msg
    · rcases hfe : oe.fileExistsAfterDownload
      · rfl
      · rw [if_pos rfl, if_pos hp]
        have hsome : (scan_file ⟨tempFilePath oe key⟩ oe.scanOutcome).2.isSome = true := by
          rw [scan_file_snd_isSome]
          exact h
        rcases hsf : (scan_file ⟨tempFilePath oe key⟩ oe.scanOutcome).2 with _ | e
        · rw [hsf] at hsome
          exact absurd hsome (by decide)
        · rfl
    · rfl
    · rfl
  · rw [if_neg hp]

/-- Claim C1: `scan_s3_object` always returns exactly one result whose
status is one of clean/infected/error/skipped (the function is total, so no
exception propagates), and — whenever the size gate admits the object —
every fetch failure, missing-file security-check failure, and scanner
failure is converted into a result with status `error`. -/
theorem scan_s3_object_total (oe : ObjEnv) (bucket key : String) :
    ((scan_s3_object oe bucket key).1.status = Status.clean ∨
     (scan_s3_object oe bucket key).1.status = Status.infected ∨
     (scan_s3_object oe bucket key).1.status = Status.error ∨
     (scan_s3_object oe bucket key).1.status = Status.skipped) ∧
    (¬ 100 < get_file_size_mb oe.headResult → dlFails oe.downloadResult = true →
      (scan_s3_object oe bucket key).1.status = Status.error) ∧
    (¬ 100 < get_file_size_mb oe.headResult → oe.fileExistsAfterDownload = false →
      (scan_s3_object oe bucket key).1.status = Status.error) ∧
    (¬ 100 < get_file_size_mb oe.headResult → scanOutcomeFails oe.scanOutcome = true →
      (scan_s3_object oe bucket key).1.status = Status.error) := by
  refine ⟨?_, ?_, ?_, ?_⟩
  · rcases (scan_s3_object oe bucket key).1.status with _ | _ | _ | _
    · exact Or.inl rfl
    · exact Or.inr (Or.inl rfl)
    · exact Or.inr (Or.inr (Or.inl rfl))
    · exact Or.inr (Or.inr (Or.inr rfl))
  · intro hsz hdl
    unfold scan_s3_object
    dsimp only
    rw [if_neg hsz]
    exact scanBody_dl_error oe bucket key _ hdl
  · intro hsz hfe
    unfold scan_s3_object
    dsimp only
    rw [if_neg hsz]
    exact scanBody_missing_error oe bucket key _ hfe
  · intro hsz hso
    unfold scan_s3_object
    dsimp only
    rw [if_neg hsz]
    exact scanBody_scan_error oe bucket key _ hso

/-- A concrete object environment whose download raises a `ClientError`. -/
def dlFailObjEnv : ObjEnv := { cleanObjEnv with downloadResult := .clientError "NoSuchKey" "err" }

/-- Claim C1, witness. -/
theorem scan_s3_object_total_witness :
    ¬ 100 < get_file_size_mb dlFailObjEnv.headResult ∧
    dlFails dlFailObjEnv.downloadResult = true ∧
    (scan_s3_object dlFailObjEnv "b" "k").1.status = Status.error := by
  have hsz : ¬ 100 < get_file_size_mb dlFailObjEnv.headResult := by
    with_unfolding_all decide
  exact ⟨hsz, rfl, (scan_s3_object_total dlFailObjEnv "b" "k").2.1 hsz rfl⟩

/-- The `rmtree` calls recorded in a trace. -/
def rmtreeEvents : List FsEvent → List FsEvent
  | [] => []
  | .rmtree d ok :: rest => .rmtree d ok :: rmtreeEvents rest
  | _ :: rest => rmtreeEvents rest

lemma rmtreeEvents_append (a b : List FsEvent) :
    rmtreeEvents (a ++ b) = rmtreeEvents a ++ rmtreeEvents b := by
  induction a with
  | nil => rfl
  | cons e rest ih => cases e <;> simp [rmtreeEvents, ih]

lemma scanBody_no_rmtree (oe : ObjEnv) (bucket key : String) (size : ℚ) :
    rmtreeEvents (scanBody oe bucket key size).2 = [] := by
  unfold scanBody
  dsimp only
  repeat' split
  all_goals rfl

/-- Claim C3: whenever `scan_s3_object` creates a workspace directory, the
`finally` step attempts its recursive deletion exactly once before
returning, on every exit path (and succeeds whenever `rmtree` does); when
the directory is already absent the cleanup is a no-op performing no
`rmtree` call; and a cleanup failure never raises and never changes the
returned result. -/
theorem workspace_cleanup (oe : ObjEnv) (bucket key : String) :
    (FsEvent.mkdtemp oe.tempDir ∈ (scan_s3_object oe bucket key).2 →
      oe.tempDir ≠ "" → oe.dirGoneBeforeCleanup = false →
      rmtreeEvents (scan_s3_object oe bucket key).2 =
        [FsEvent.rmtree oe.tempDir (!oe.rmtreeFails)]) ∧
    (oe.dirGoneBeforeCleanup = true →
      rmtreeEvents (scan_s3_object oe bucket key).2 = []) ∧
    (scan_s3_object { oe with rmtreeFails := true } bucket key).1 =
      (scan_s3_object oe bucket key).1 := by
  have hstep : ∀ l, rmtreeEvents
      (FsEvent.headObject bucket key :: FsEvent.mkdtemp oe.tempDir :: l) = rmtreeEvents l :=
    fun l => rfl
  refine ⟨?_, ?_, ?_⟩
  · intro hmem htd hgone
    by_cases hsz : 100 < get_file_size_mb oe.headResult
    · exfalso
      unfold scan_s3_object at hmem
      dsimp only at hmem
      rw [if_pos hsz] at hmem
      simp at hmem
    · unfold scan_s3_object
      dsimp only
      rw [if_neg hsz]
      dsimp only
      rw [hstep, rmtreeEvents_append, scanBody_no_rmtree, List.nil_append]
      rw [cleanupEvents, if_pos ⟨htd, hgone⟩]
      rcases hrf : oe.rmtreeFails
      · rfl
      · rfl
  · intro hgone
    by_cases hsz : 100 < get_file_size_mb oe.headResult
    · unfold scan_s3_object
      dsimp only
      rw [if_pos hsz]
      rfl
    · unfold scan_s3_object
      dsimp only
      rw [if_neg hsz]
      dsimp only
      rw [hstep, rmtreeEvents_append, scanBody_no_rmtree, List.nil_append]
      rw [cleanupEvents, if_neg (by simp [hgone])]
      rfl
  · unfold scan_s3_object scanBody pathOk tempFilePath
    dsimp only
    by_cases hsz : 100 < get_file_size_mb oe.headResult
    · simp only [if_pos hsz]
    · simp only [if_neg hsz]

/-- Claim C3, witness: on the all-success path the workspace is created and
then removed exactly once. -/
theorem workspace_cleanup_witness :
    FsEvent.mkdtemp cleanObjEnv.tempDir ∈ (scan_s3_object cleanObjEnv "b" "k").2 ∧
    cleanObjEnv.tempDir ≠ "" ∧
    rmtreeEvents (scan_s3_object cleanObjEnv "b" "k").2 =
      [FsEvent.rmtree cleanObjEnv.tempDir true] := by
  have hmem : FsEvent.mkdtemp cleanObjEnv.tempDir ∈ (scan_s3_object cleanObjEnv "b" "k").2 := by
    with_unfolding_all decide
  have htd : cleanObjEnv.tempDir ≠ "" := by decide
  have h := (workspace_cleanup cleanObjEnv "b" "k").1 hmem htd rfl
  refine ⟨hmem, htd, ?_⟩
  rw [h]
  rfl

end VirusCheck
